import Mathlib

/-!
Verification of the PayLink agent bridge.

The repository file `src/agent/src/graph.py` is a module-level script that
instantiates a chat model, fetches the remote tool catalog through
`PayLinkTools.list_tools()`, and hands the resulting tool list to
`create_agent`.  The tool-discovery / tool-invocation bridge itself
(ToolRegistry, ToolInvoker, transport client) is not part of the sources;
it is specified by the design document, so those components are modelled
from the spec below, while the module-level wiring of `graph.py` is
embedded from the source.
-/

set_option autoImplicit false

namespace ToolBridge

/-- Modelled from the spec: the JSON-compatible value types used by
`input_schema` ("types, required/optional fields"). -/
inductive JsonType where
  | str
  | num
  | boolean
  | obj
  | arr
  | nul
  deriving DecidableEq, Repr

/-- Modelled from the spec: JSON-compatible values carried in tool-call
arguments and results. -/
inductive Json where
  | str (s : String)
  | num (n : Int)
  | boolean (b : Bool)
  | obj (fields : List (String × Json))
  | arr (items : List Json)
  | nul

/-- The JSON type of a value. -/
def typeOf : Json → JsonType
  | .str _ => .str
  | .num _ => .num
  | .boolean _ => .boolean
  | .obj _ => .obj
  | .arr _ => .arr
  | .nul => .nul

/-- Modelled from the spec: one field of a tool's `input_schema`
(a type plus a required/optional marker). -/
structure FieldSpec where
  fname : String
  ftype : JsonType
  required : Bool
  deriving DecidableEq, Repr

/-- Modelled from the spec: a structured `input_schema` describing the
accepted arguments of a tool. -/
abbrev InputSchema := List FieldSpec

/-- Modelled from the spec: `ToolSpec = { name, description, input_schema }`,
immutable once discovered. -/
structure ToolSpec where
  name : String
  description : String
  input_schema : InputSchema
  deriving DecidableEq, Repr

/-- Modelled from the spec: a raw catalog entry as returned by the remote
service, before validation.  A missing (`none`) schema stands for an entry
whose schema is not well-formed. -/
structure RawEntry where
  name : String
  description : String
  schema : Option InputSchema
  deriving DecidableEq, Repr

/-- Modelled from the spec: the error taxonomy of the bridge —
`DiscoveryError`, `UnknownToolError`, `InvalidArgumentsError`,
`TimeoutError`.  (`RemoteToolError` is carried inside `ToolCallResult`,
never thrown, so it has no constructor here.) -/
inductive BridgeError where
  | discoveryError
  | unknownToolError (name : String)
  | invalidArgumentsError
  | timeoutError
  deriving DecidableEq, Repr

/-- Modelled from the spec: the possible outcomes of one catalog-fetch
exchange with the remote endpoint. -/
inductive FetchResult where
  | ok (entries : List RawEntry)
  | malformed
  | unreachable
  | timeout
  deriving DecidableEq, Repr

/-- A raw entry is valid when its name is non-empty and its schema is
well-formed. -/
def validEntry (e : RawEntry) : Bool :=
  e.name != "" && e.schema.isSome

/-- Boolean check that a list of names is duplicate-free. -/
def nodupNames : List String → Bool
  | [] => true
  | n :: rest => !(decide (n ∈ rest)) && nodupNames rest

/-- Convert a validated raw entry into a `ToolSpec`. -/
def toSpec (e : RawEntry) : ToolSpec :=
  ⟨e.name, e.description, e.schema.getD []⟩

/-- Modelled from the spec: `ToolRegistry.discover()`.  Requests the
catalog, validates that every entry has a non-empty name and a well-formed
schema and that names are unique, and returns the server-ordered sequence;
fails with `DiscoveryError` on unreachable endpoint, malformed data or
duplicate names, and with `TimeoutError` when the transport exceeds its
bound. -/
def discover : FetchResult → Except BridgeError (List ToolSpec)
  | .unreachable => .error .discoveryError
  | .malformed => .error .discoveryError
  | .timeout => .error .timeoutError
  | .ok entries =>
      if entries.all validEntry && nodupNames (entries.map RawEntry.name) then
        .ok (entries.map toSpec)
      else
        .error .discoveryError

/-- Modelled from the spec: the registry state — the process-wide cached
snapshot of the last successful discovery. -/
structure RegistryState where
  snapshot : List ToolSpec
  deriving DecidableEq, Repr

/-- Modelled from the spec: one discovery call with its side effect on the
registry — on success the cached snapshot is overwritten atomically; on
failure the state is left unchanged. -/
def discoverStep (st : RegistryState) (fetch : FetchResult) :
    Except BridgeError (List ToolSpec) × RegistryState :=
  match discover fetch with
  | .ok specs => (.ok specs, ⟨specs⟩)
  | .error e => (.error e, st)

/-- Modelled from the spec: `ToolCallRequest = { tool_name, arguments }`. -/
structure ToolCallRequest where
  tool_name : String
  arguments : List (String × Json)

/-- Modelled from the spec: `ToolCallResult = { success, output, error }`,
with remote-originating failures carried in `error` as data. -/
structure ToolCallResult where
  success : Bool
  output : Option Json
  error : Option String

/-- Modelled from the spec: the possible outcomes of one invocation
exchange with the remote endpoint.  `remoteFailure` is a tool that executed
but reported failure; `networkFailure` is a network-level fault. -/
inductive WireResponse where
  | success (output : Json)
  | remoteFailure (err : String)
  | networkFailure (err : String)
  | timeout

/-- Look up a tool by name in the snapshot, first match wins. -/
def lookupTool : List ToolSpec → String → Option ToolSpec
  | [], _ => none
  | s :: rest, n => if s.name = n then some s else lookupTool rest n

/-- Look up an argument by field name. -/
def lookupArg : List (String × Json) → String → Option Json
  | [], _ => none
  | (k, v) :: rest, n => if k = n then some v else lookupArg rest n

/-- One schema field is satisfied by the arguments: required fields are
present, and any supplied value has the declared type. -/
def fieldOk (args : List (String × Json)) (f : FieldSpec) : Bool :=
  match lookupArg args f.fname with
  | none => !f.required
  | some v => typeOf v == f.ftype

/-- An argument names a field that the schema declares. -/
def argKnown (schema : InputSchema) (kv : String × Json) : Bool :=
  schema.any (fun f => f.fname == kv.1)

/-- Modelled from the spec: validation of `arguments` against the tool's
`input_schema` — every schema field is satisfied and every argument is a
declared field. -/
def validateArgs (schema : InputSchema) (args : List (String × Json)) : Bool :=
  schema.all (fieldOk args) && args.all (argKnown schema)

/-- Modelled from the spec: `ToolInvoker.invoke(request)`.  Looks up
`tool_name` in the snapshot and fails fast with `UnknownToolError` if
absent; validates the arguments against the tool's `input_schema` before
transmission and fails with `InvalidArgumentsError` on mismatch; otherwise
performs exactly one wire exchange and packages remote-side and
network-level failures as a `ToolCallResult` with `success = false` rather
than throwing.  The second component counts the network calls made. -/
def invoke (st : RegistryState) (req : ToolCallRequest) (wire : WireResponse) :
    Except BridgeError ToolCallResult × Nat :=
  match lookupTool st.snapshot req.tool_name with
  | none => (.error (.unknownToolError req.tool_name), 0)
  | some spec =>
      if validateArgs spec.input_schema req.arguments then
        match wire with
        | .success out => (.ok ⟨true, some out, none⟩, 1)
        | .remoteFailure e => (.ok ⟨false, none, some e⟩, 1)
        | .networkFailure e => (.ok ⟨false, none, some e⟩, 1)
        | .timeout => (.error .timeoutError, 1)
      else
        (.error .invalidArgumentsError, 0)

/-- Modelled from the spec: which fetch outcomes count as transient
network errors for the transport client's retry policy. -/
def isTransient : FetchResult → Bool
  | .unreachable => true
  | .timeout => true
  | .ok _ => false
  | .malformed => false

/-- Modelled from the spec: the transport client's attempt loop.  `bound`
is the maximum number of attempts; `outcomes` lists the result each
successive attempt would produce.  Returns the final outcome together with
the number of attempts actually made; a transient error is retried while
attempts remain, any other outcome is returned at once. -/
def attemptLoop : Nat → List FetchResult → FetchResult × Nat
  | 0, _ => (.unreachable, 0)
  | _ + 1, [] => (.unreachable, 0)
  | 1, o :: _ => (o, 1)
  | b + 2, o :: rest =>
      if isTransient o then
        let r := attemptLoop (b + 1) rest
        (r.1, r.2 + 1)
      else
        (o, 1)

/-- Modelled from the spec: the fixed retry bound for idempotent discovery
calls — "up to a small fixed bound (e.g., 3 attempts with backoff)". -/
def discoveryRetryBound : Nat := 3

/-- Modelled from the spec: a catalog fetch through the transport client,
retrying transient errors up to `discoveryRetryBound` attempts. -/
def fetchCatalogWithRetry (outcomes : List FetchResult) : FetchResult × Nat :=
  attemptLoop discoveryRetryBound outcomes

/-- Modelled from the spec: one invocation exchange through the transport
client.  Invocation calls are not automatically retried unless the caller
explicitly opts in; `optIn = false` performs at most one attempt. -/
def sendInvocation (optIn : Bool) (retryBound : Nat) (outcomes : List FetchResult) :
    FetchResult × Nat :=
  if optIn then attemptLoop retryBound outcomes else attemptLoop 1 outcomes

end ToolBridge

namespace Graph

open ToolBridge

/-- The agent object produced by `create_agent` in `graph.py`: it holds the
model identifier and the tool list it was constructed with. -/
structure Agent where
  model : String
  tools : List ToolSpec

/-- Embedding of `create_agent(model=llm, tools=tools)` as used in
`graph.py`: the agent is built from the model and the tool list as given. -/
def create_agent (model : String) (tools : List ToolSpec) : Agent :=
  ⟨model, tools⟩

/-- The environment a module load runs in: the remote server state each
successive discovery call would observe, and a counter of discovery calls
made so far. -/
structure Env where
  fetches : Nat → FetchResult
  calls : Nat

/-- Modelled from the spec: `PayLinkTools.list_tools()` — the ToolRegistry
discovery call made by `graph.py` line 12; its code is not in the sources.
It performs one catalog fetch against the current server state and bumps
the discovery-call counter. -/
def list_toolsM (env : Env) : Except BridgeError (List ToolSpec) × Env :=
  (discover (env.fetches env.calls), ⟨env.fetches, env.calls + 1⟩)

/-- Embedding of the module-level script `graph.py`: build the chat model,
call `client.list_tools()`, then call `create_agent(model=llm,
tools=tools)`.  A raised exception during `list_tools()` aborts the module
load, so `create_agent` is never reached and no agent is constructed;
otherwise the tool list is passed to `create_agent` unchanged. -/
def loadGraph (env : Env) : Except BridgeError Agent × Env :=
  let llm := "gpt-4o-mini"
  let r := list_toolsM env
  match r.1 with
  | .error e => (.error e, r.2)
  | .ok tools => (.ok (create_agent llm tools), r.2)

end Graph

namespace Samples

open ToolBridge

/-- The spec's sample catalog entry: `charge_card` with a numeric required
`amount` field. -/
def chargeEntry : RawEntry :=
  ⟨"charge_card", "charge a card", some [⟨"amount", .num, true⟩]⟩

/-- The `ToolSpec` produced from `chargeEntry`. -/
def chargeSpec : ToolSpec := toSpec chargeEntry

/-- A second sample entry, used to build catalogs with duplicate names. -/
def refundEntry : RawEntry :=
  ⟨"refund", "refund a charge", some []⟩

end Samples

namespace ToolBridge

theorem nodupNames_iff (ns : List String) : nodupNames ns = true ↔ ns.Nodup := by
  induction ns with
  | nil => simp [nodupNames]
  | cons n rest ih =>
      simp [nodupNames, List.nodup_cons, ih]

theorem map_toSpec_name (entries : List RawEntry) :
    (entries.map toSpec).map ToolSpec.name = entries.map RawEntry.name := by
  induction entries with
  | nil => rfl
  | cons e rest ih => simp [toSpec, ih]

theorem attemptLoop_le (bound : Nat) (outcomes : List FetchResult) :
    (attemptLoop bound outcomes).2 ≤ bound := by
  induction bound generalizing outcomes with
  | zero => simp [attemptLoop]
  | succ b ih =>
      cases outcomes with
      | nil => simp [attemptLoop]
      | cons o rest =>
          cases b with
          | zero => simp [attemptLoop]
          | succ b2 =>
              by_cases h : isTransient o = true
              · simpa [attemptLoop, h] using ih rest
              · simp [attemptLoop, h]

end ToolBridge

section Claims

open ToolBridge Graph Samples

/-- C1: every successful `discover()` returns pairwise-distinct tool names,
and a catalog with duplicate names, malformed data, or an unreachable
endpoint makes `discover()` fail with `DiscoveryError`. -/
theorem discover_names_unique :
    (∀ fetch specs, discover fetch = .ok specs → (specs.map ToolSpec.name).Nodup)
    ∧ (∀ entries, ¬ (entries.map RawEntry.name).Nodup →
        discover (.ok entries) = .error .discoveryError)
    ∧ discover .malformed = .error .discoveryError
    ∧ discover .unreachable = .error .discoveryError := by
  refine ⟨?_, ?_, rfl, rfl⟩
  · intro fetch specs h
    cases fetch with
    | ok entries =>
        rw [discover] at h
        by_cases hc : (entries.all validEntry && nodupNames (entries.map RawEntry.name)) = true
        · rw [if_pos hc] at h
          cases h
          rw [map_toSpec_name]
          exact (nodupNames_iff _).mp (Bool.and_eq_true .. ▸ hc).2
        · rw [if_neg hc] at h
          cases h
    | malformed => cases h
    | unreachable => cases h
    | timeout => cases h
  · intro entries hdup
    rw [discover, if_neg]
    intro hc
    exact hdup ((nodupNames_iff _).mp (Bool.and_eq_true .. ▸ hc).2)

/-- Witness for C1 at the spec's sample catalog and at a duplicate
catalog. -/
theorem discover_names_unique_witness :
    ([chargeSpec].map ToolSpec.name).Nodup
    ∧ discover (.ok [chargeEntry, chargeEntry]) = .error .discoveryError :=
  ⟨discover_names_unique.1 (.ok [chargeEntry]) [chargeSpec] rfl,
   discover_names_unique.2.1 [chargeEntry, chargeEntry] (by decide)⟩

/-- C2: when the discovery call at module load fails, the module load of
`graph.py` aborts with that error and no agent is constructed —
`create_agent` on line 14 is only reached after `client.list_tools()` on
line 12 returned successfully. -/
theorem discovery_failure_aborts_agent (env : Env) (e : ToolBridge.BridgeError)
    (h : (list_toolsM env).1 = .error e) :
    (loadGraph env).1 = .error e := by
  simp only [loadGraph]
  rw [h]

/-- Witness for C2: a malformed catalog at load time yields an aborted
module load. -/
theorem discovery_failure_aborts_agent_witness :
    (loadGraph ⟨fun _ => .malformed, 0⟩).1 = .error .discoveryError :=
  discovery_failure_aborts_agent ⟨fun _ => .malformed, 0⟩ .discoveryError rfl

/-- C3: invoking a tool name absent from the snapshot fails fast with
`UnknownToolError` and performs zero network calls, whatever the wire
would have answered. -/
theorem invoke_unknown_tool (st : RegistryState) (req : ToolCallRequest)
    (wire : WireResponse) (h : lookupTool st.snapshot req.tool_name = none) :
    invoke st req wire = (.error (.unknownToolError req.tool_name), 0) := by
  simp [invoke, h]

/-- Witness for C3: the spec's scenario — invoking `refund` against a
snapshot not containing it. -/
theorem invoke_unknown_tool_witness :
    invoke ⟨[chargeSpec]⟩ ⟨"refund", []⟩ (.success .nul)
      = (.error (.unknownToolError "refund"), 0) :=
  invoke_unknown_tool ⟨[chargeSpec]⟩ ⟨"refund", []⟩ (.success .nul) rfl

/-- C4: for a known tool with valid arguments, a network-level or
remote-side failure is never thrown from `invoke()`: it comes back as a
`ToolCallResult` with `success = false` and a populated `error` field. -/
theorem invoke_failures_are_data (st : RegistryState) (req : ToolCallRequest)
    (spec : ToolSpec) (e : String)
    (hl : lookupTool st.snapshot req.tool_name = some spec)
    (hv : validateArgs spec.input_schema req.arguments = true) :
    invoke st req (.networkFailure e) = (.ok ⟨false, none, some e⟩, 1)
    ∧ invoke st req (.remoteFailure e) = (.ok ⟨false, none, some e⟩, 1) := by
  constructor <;> simp [invoke, hl, hv]

/-- Witness for C4: a valid `charge_card` call whose wire exchange fails. -/
theorem invoke_failures_are_data_witness :
    invoke ⟨[chargeSpec]⟩ ⟨"charge_card", [("amount", .num 10)]⟩ (.networkFailure "down")
      = (.ok ⟨false, none, some "down"⟩, 1)
    ∧ invoke ⟨[chargeSpec]⟩ ⟨"charge_card", [("amount", .num 10)]⟩ (.remoteFailure "down")
      = (.ok ⟨false, none, some "down"⟩, 1) :=
  invoke_failures_are_data ⟨[chargeSpec]⟩ ⟨"charge_card", [("amount", .num 10)]⟩
    chargeSpec "down" rfl rfl

/-- C5: for a known tool whose arguments do not match its `input_schema`,
`invoke()` fails with `InvalidArgumentsError` and performs zero network
calls — the request is never sent over the wire. -/
theorem invoke_invalid_arguments (st : RegistryState) (req : ToolCallRequest)
    (spec : ToolSpec) (wire : WireResponse)
    (hl : lookupTool st.snapshot req.tool_name = some spec)
    (hv : validateArgs spec.input_schema req.arguments = false) :
    invoke st req wire = (.error .invalidArgumentsError, 0) := by
  simp [invoke, hl, hv]

/-- Witness for C5: calling `charge_card` without its required `amount`
argument. -/
theorem invoke_invalid_arguments_witness :
    invoke ⟨[chargeSpec]⟩ ⟨"charge_card", []⟩ (.success .nul)
      = (.error .invalidArgumentsError, 0) :=
  invoke_invalid_arguments ⟨[chargeSpec]⟩ ⟨"charge_card", []⟩ chargeSpec
    (.success .nul) rfl rfl

/-- C6: a discovery call whose transport exceeds the timeout bound fails
with `TimeoutError`, and the registry snapshot after the call equals the
snapshot before it. -/
theorem discovery_timeout_preserves_snapshot (st : RegistryState) :
    discoverStep st .timeout = (.error .timeoutError, st) := rfl

/-- C7: two `discover()` calls against an unchanged remote catalog yield
the identical ordered `ToolSpec` sequence. -/
theorem discover_idempotent (st : RegistryState) (fetch : FetchResult)
    (specs : List ToolSpec) (h : discover fetch = .ok specs) :
    (discoverStep st fetch).1 = .ok specs
    ∧ (discoverStep (discoverStep st fetch).2 fetch).1 = .ok specs := by
  constructor <;> simp [discoverStep, h]

/-- Witness for C7: two discoveries of the sample catalog return the same
one-element sequence. -/
theorem discover_idempotent_witness :
    (discoverStep ⟨[]⟩ (.ok [chargeEntry])).1 = .ok [chargeSpec]
    ∧ (discoverStep (discoverStep ⟨[]⟩ (.ok [chargeEntry])).2 (.ok [chargeEntry])).1
      = .ok [chargeSpec] :=
  discover_idempotent ⟨[]⟩ (.ok [chargeEntry]) [chargeSpec] rfl

/-- C8: the transport client makes at most 3 attempts for a discovery
call, and an invocation call without the explicit opt-in makes at most one
attempt, whatever the outcomes. -/
theorem transport_retry_bounds (outcomes : List ToolBridge.FetchResult) (bound : Nat) :
    (fetchCatalogWithRetry outcomes).2 ≤ 3
    ∧ (sendInvocation false bound outcomes).2 ≤ 1 := by
  constructor
  · exact attemptLoop_le discoveryRetryBound outcomes
  · simpa [sendInvocation] using attemptLoop_le 1 outcomes

/-- C9: whatever tool list `client.list_tools()` returns, the agent in
`graph.py` is constructed by `create_agent` with exactly that list,
unchanged — no uniqueness check, validation, filtering or reordering
happens in between. -/
theorem agent_gets_tools_unchanged (env : Env) (ts : List ToolBridge.ToolSpec)
    (h : (list_toolsM env).1 = .ok ts) :
    (loadGraph env).1 = .ok (create_agent "gpt-4o-mini" ts)
    ∧ ∀ a, (loadGraph env).1 = .ok a → a.tools = ts := by
  have hload : (loadGraph env).1 = .ok (create_agent "gpt-4o-mini" ts) := by
    simp only [loadGraph]
    rw [h]
  refine ⟨hload, ?_⟩
  intro a ha
  rw [hload] at ha
  cases ha
  rfl

/-- Witness for C9: loading the module against the sample catalog hands
the discovered one-element list to the agent as is. -/
theorem agent_gets_tools_unchanged_witness :
    (loadGraph ⟨fun _ => .ok [chargeEntry], 0⟩).1
      = .ok (create_agent "gpt-4o-mini" [chargeSpec]) :=
  (agent_gets_tools_unchanged ⟨fun _ => .ok [chargeEntry], 0⟩ [chargeSpec] rfl).1

/-- C10: loading `graph.py` performs exactly one discovery call, and the
module-load outcome depends only on the server state seen by that single
call — there is no re-discovery or refresh path, so later server states
never affect the agent. -/
theorem discovery_happens_once (fetches fetches2 : Nat → ToolBridge.FetchResult)
    (h : fetches 0 = fetches2 0) :
    (loadGraph ⟨fetches, 0⟩).2.calls = 1
    ∧ (loadGraph ⟨fetches, 0⟩).1 = (loadGraph ⟨fetches2, 0⟩).1 := by
  constructor
  · simp only [loadGraph, list_toolsM]
    cases hd : discover (fetches 0) <;> simp [hd]
  · simp only [loadGraph, list_toolsM, h]
    cases hd : discover (fetches2 0) <;> simp [hd]

/-- Witness for C10: two server histories agreeing only at the first call
produce the same module-load outcome, in one discovery call. -/
theorem discovery_happens_once_witness :
    (loadGraph ⟨fun _ => .ok [chargeEntry], 0⟩).2.calls = 1
    ∧ (loadGraph ⟨fun _ => .ok [chargeEntry], 0⟩).1
      = (loadGraph ⟨fun n => match n with
          | 0 => .ok [chargeEntry]
          | _ + 1 => .malformed, 0⟩).1 :=
  discovery_happens_once (fun _ => .ok [chargeEntry])
    (fun n => match n with
      | 0 => .ok [chargeEntry]
      | _ + 1 => .malformed) rfl

end Claims
